import Mathlib

/-!
Verification of the daily-hud check orchestration engine.

The definitions below are a shallow embedding of the Python sources:
`daily_hud.py` (registry, selection, run_check wrapper, thread-pool fan-in,
summary counts, exit code), `output.py` (Status, CheckResult, summary
counts), `secrets.py` (get_secrets), `checks/domains.py` (TTL cache and the
per-domain loop), and `checks/containers.py` (the per-image loop).

External collaborators (WHOIS, Trivy, the 1Password CLI, datetime parsing)
are modelled as oracle function parameters, exactly at the call boundary the
Python code uses them.
-/

set_option autoImplicit false

namespace DailyHud

/-- Status enum from output.py. -/
inductive Status where
  | OK
  | WARNING
  | ERROR
  | UNKNOWN
  deriving DecidableEq, Repr

/-- CheckResult dataclass from output.py: name, status, message, details. -/
structure CheckResult where
  name : String
  status : Status
  message : String
  details : List String := []
  deriving DecidableEq, Repr

/-- Static check table CHECKS from daily_hud.py: check id mapped to its
display section name (the requires-secret field is not consulted by any
code path and is omitted). Order is the dict insertion order. -/
def CHECKS : List (String × String) :=
  [ ("todoist", "Todoist")
  , ("github", "GitHub")
  , ("kubernetes", "Kubernetes")
  , ("truenas", "TrueNAS")
  , ("ssh", "SSH Hosts")
  , ("windows", "Windows")
  , ("certs", "Certificates")
  , ("domains", "Domains")
  , ("cves", "Security")
  , ("containers", "Containers")
  ]

/-- Python str.title applied to a check name: each alphabetic character is
uppercased when the preceding character is not alphabetic, lowercased
otherwise. Used only for names absent from CHECKS. -/
def pyTitle (s : String) : String :=
  String.mk ((s.toList.foldl
    (fun (acc : List Char × Bool) c =>
      (acc.1 ++ [if acc.2 then c.toUpper else c.toLower], !c.isAlpha))
    ([], true)).1)

/-- Section label of a check name: CHECKS.get(check_name, \x7b\x7d).get("section",
check_name.title()), as computed both in run_check and in the
timeout-branch of main. -/
def sectionOf (check_name : String) : String :=
  (List.lookup check_name CHECKS).getD (pyTitle check_name)

/-- Outcome of calling one probe function: a normal return of a result list,
or a raised exception carrying str(e). -/
inductive ProbeOutcome where
  | ok (results : List CheckResult)
  | exn (msg : String)

/-- run_check from daily_hud.py: dispatches the named check to its probe
function inside a try block; any exception becomes a single synthetic ERROR
result; an unregistered name yields the "Unknown check" result. The probe
dispatch (the elif chain and its config/secret plumbing) is abstracted as
the oracle `probes`. -/
def run_check (probes : String → ProbeOutcome) (check_name : String) :
    String × List CheckResult :=
  let sec := sectionOf check_name
  if (List.lookup check_name CHECKS).isSome then
    match probes check_name with
    | .ok results => (sec, results)
    | .exn msg =>
        (sec, [{ name := check_name, status := .ERROR,
                 message := sec ++ ": Error - " ++ msg.take 50 }])
  else
    (sec, [{ name := check_name, status := .ERROR,
             message := "Unknown check: " ++ check_name }])

/-- Accumulated fan-in state in main: the all_results dict (section name to
result list, insertion-ordered) and the all_flat_results list. -/
structure RunState where
  all_results : List (String × List CheckResult)
  all_flat_results : List CheckResult
  deriving Repr

/-- Python dict assignment d[k] = v on an insertion-ordered assoc list:
replaces in place when the key is present, appends otherwise. -/
def insertAssoc {α : Type} (m : List (String × α)) (k : String) (v : α) :
    List (String × α) :=
  match m with
  | [] => [(k, v)]
  | (k', v') :: rest =>
      if k' = k then (k, v) :: rest else (k', v') :: insertAssoc rest k v

/-- One event observed by the as_completed loop in main: either a submitted
future completed (and is yielded), or the overall timeout*2 ceiling expired
with futures still unresolved, at which point as_completed raises
TimeoutError. -/
inductive Event where
  | completed (check_name : String)
  | ceiling

/-- Body of the as_completed loop for one yielded future. A yielded future
is already finished, so future.result returns run_check output when the
callable returned, and re-raises when the callable raised; the except
branch turns a raised future into the synthetic "Timeout or error" result.
run_check is total, so in this program the outcome is always ok. -/
def processFuture (st : RunState) (check_name : String)
    (outcome : Except String (String × List CheckResult)) : RunState :=
  match outcome with
  | .ok (sec, results) =>
      { all_results := insertAssoc st.all_results sec results
      , all_flat_results := st.all_flat_results ++ results }
  | .error _ =>
      let sec := sectionOf check_name
      let error_result : CheckResult :=
        { name := check_name, status := .ERROR,
          message := sec ++ ": Timeout or error" }
      { all_results := insertAssoc st.all_results sec [error_result]
      , all_flat_results := st.all_flat_results ++ [error_result] }

/-- The fan-in loop of main (lines 293-307): iterate over completion
events. A ceiling event is the as_completed timeout, raised at the for
statement itself, outside the try/except, so nothing in main catches it:
the whole collection aborts and no RunState is produced. -/
def collectResults (probes : String → ProbeOutcome) :
    List Event → RunState → Except Unit RunState
  | [], st => .ok st
  | .ceiling :: _, _ => .error ()
  | .completed nm :: rest, st =>
      collectResults probes rest
        (processFuture st nm (.ok (run_check probes nm)))

/-- Initial fan-in state: all_results = empty dict, all_flat_results = []. -/
def initState : RunState := { all_results := [], all_flat_results := [] }

/-- Exit code computation of main (lines 355-363): 2 when any result has
status ERROR, else 1 when any has status WARNING, else 0. -/
def overallExitCode (flat : List CheckResult) : Nat :=
  if flat.any (fun r => r.status = Status.ERROR) then 2
  else if flat.any (fun r => r.status = Status.WARNING) then 1
  else 0

/-- Count of OK results, as in print_summary and the json summary. -/
def okCount (flat : List CheckResult) : Nat :=
  List.countP (fun r => r.status = Status.OK) flat

/-- Count of WARNING results, as in print_summary and the json summary. -/
def warnCount (flat : List CheckResult) : Nat :=
  List.countP (fun r => r.status = Status.WARNING) flat

/-- Count of ERROR results, as in print_summary and the json summary. -/
def errorCount (flat : List CheckResult) : Nat :=
  List.countP (fun r => r.status = Status.ERROR) flat

/-- The slice of the YAML configuration dict consulted by the run-set
selection in main and by get_secrets. Absent keys are the defaults Python
.get produces: empty dict, None, or empty list. cves_check_local models
config.get("cves", \x7b\x7d).get("check_local", True). -/
structure Config where
  secrets : List (String × String) := []
  github_username : Option String := none
  truenas_host : Option String := none
  ssh_hosts : List String := []
  windows_hosts : List String := []
  certificates : List String := []
  domains : List String := []
  cves_check_local : Bool := true
  deriving Repr

/-- Python truthiness of an optional string (None or str). -/
def pyTruthyStr (s : Option String) : Bool :=
  match s with
  | none => false
  | some s => s ≠ ""

/-- Python truthiness of a list. -/
def pyTruthyList {α : Type} (l : List α) : Bool := !l.isEmpty

/-- get_secrets from secrets.py: for each configured name, attempt
retrieval through get_secret (an external subprocess call, modelled as the
oracle `resolve`); on SecretsError the name is stored with value None
instead of failing the whole lookup. -/
def get_secrets (resolve : String → Except String String) (config : Config) :
    List (String × Option String) :=
  config.secrets.map (fun p =>
    match resolve p.2 with
    | .ok v => (p.1, some v)
    | .error _ => (p.1, none))

/-- Auto-selection predicate of main (lines 251-272): the per-check elif
chain deciding inclusion when no explicit list is given. -/
def autoInclude (config : Config) (check_name : String) : Bool :=
  if check_name = "todoist" then
    pyTruthyStr (List.lookup "todoist_token" config.secrets)
  else if check_name = "github" then pyTruthyStr config.github_username
  else if check_name = "kubernetes" then true
  else if check_name = "truenas" then pyTruthyStr config.truenas_host
  else if check_name = "ssh" then pyTruthyList config.ssh_hosts
  else if check_name = "windows" then pyTruthyList config.windows_hosts
  else if check_name = "certs" then pyTruthyList config.certificates
  else if check_name = "domains" then pyTruthyList config.domains
  else if check_name = "cves" then config.cves_check_local
  else if check_name = "containers" then true
  else false

/-- checks_to_run in the auto branch of main: iterate over CHECKS in table
order and keep the names passing their inclusion predicate. -/
def autoChecks (config : Config) : List String :=
  (CHECKS.map Prod.fst).filter (autoInclude config)

/-- Python str.split(sep) for a one-character separator, as used on the
--only argument. -/
def splitChar (sep : Char) (s : String) : List String :=
  (s.toList.foldr
    (fun c acc =>
      match acc with
      | cur :: rest =>
          if c = sep then [] :: cur :: rest else (c :: cur) :: rest
      | [] => [[c]])
    [[]]).map String.mk

/-- Python str.strip(): drop leading and trailing whitespace. -/
def pyStrip (s : String) : String :=
  String.mk
    (((s.toList.dropWhile Char.isWhitespace).reverse.dropWhile
      Char.isWhitespace).reverse)

/-- Explicit branch of main (lines 240-247): split --only on commas, strip
each name, and fail with exit code 1 when any name is not in CHECKS. -/
def explicitChecks (s : String) : Except (String × Nat) (List String) :=
  let checks_to_run := (splitChar ',' s).map pyStrip
  let invalid := checks_to_run.filter
    (fun c => (List.lookup c CHECKS).isNone)
  if invalid.isEmpty then .ok checks_to_run
  else .error ("Unknown checks: " ++ String.intercalate ", " invalid, 1)

/-- Run-set resolution of main (lines 240-276): the explicit branch when
args.only is truthy, the auto branch otherwise; afterwards an empty
checks_to_run is reported and the program exits with code 1, before any
probe is submitted to the executor. -/
def mainSelect (onlyArg : Option String) (config : Config) :
    Except (String × Nat) (List String) := do
  let checks_to_run ←
    match onlyArg with
    | some s => if s = "" then pure (autoChecks config) else explicitChecks s
    | none => pure (autoChecks config)
  if checks_to_run.isEmpty then
    .error ("No checks configured. Edit your config file.", 1)
  else
    .ok checks_to_run

/-- Spec-modelled predicate, from the words of the specification: a
todoist secret "resolved" when get_secrets produced an actual value for
the name todoist_token (not the stored None of a failed retrieval). -/
def specTodoistSecretResolved (secrets : List (String × Option String)) :
    Prop :=
  ∃ v : String, List.lookup "todoist_token" secrets = some (some v)

/-- State of a cache namespace backing file, as observed by _load_cache:
absent (exists() is false), unreadable (stat/open/read raises OSError),
malformed (json.load raises JSONDecodeError), or a valid JSON object with
the file modification time in seconds. -/
inductive CacheBackingFile (β : Type) where
  | absent
  | unreadable
  | malformed (mtime : ℚ)
  | valid (mtime : ℚ) (data : List (String × β))

/-- _load_cache from checks/domains.py (the copy in checks/containers.py is
identical): empty dict when the file is absent; inside a try that catches
JSONDecodeError and OSError, compute age_hours = (now - mtime)/3600, return
empty when age_hours > max_age_hours, otherwise parse the file; parse and
I/O failures return the empty dict. -/
def loadCache {β : Type} (file : CacheBackingFile β) (now : ℚ)
    (max_age_hours : ℚ) : List (String × β) :=
  match file with
  | .absent => []
  | .unreadable => []
  | .malformed _ => []
  | .valid mtime data =>
      if (now - mtime) / 3600 > max_age_hours then [] else data

/-- _save_cache from checks/domains.py (same in checks/containers.py):
overwrite the backing file with the serialized dict, giving it the current
time as mtime; an OSError is swallowed and the file is left as it was.
The ioOk flag models whether the write raises. -/
def saveCache {β : Type} (ioOk : Bool) (file : CacheBackingFile β)
    (data : List (String × β)) (now : ℚ) : CacheBackingFile β :=
  if ioOk then .valid now data else file

/-- _get_cache_path from checks/domains.py (same shape in
checks/containers.py, with its own filename): joins the expanded cache
directory with the namespace filename and calls mkdir(parents=True,
exist_ok=True) on the parent with no surrounding try: a mkdir failure
raises OSError out of the function. The mkdirOk flag models whether mkdir
raises. -/
def getCachePath (mkdirOk : Bool) (cache_dir : String) (filename : String) :
    Except String String :=
  if mkdirOk then .ok (cache_dir ++ "/" ++ filename)
  else .error "OSError raised by mkdir"

/-- Cache entry written by checks/domains.py: a JSON object whose values
are strings (the module only ever stores an error string or an isoformat
expiry string). -/
abbrev DomainEntry := List (String × String)

/-- Cache-setup portion of check_domains (lines 119-127): when caching is
enabled, resolve the cache path (any OSError from mkdir propagates out of
the probe body) and load the cache; otherwise the cached data stays the
empty dict. -/
def checkDomainsCacheSetup (mkdirOk : Bool)
    (file : CacheBackingFile DomainEntry) (now : ℚ) (use_cache : Bool)
    (cache_dir : String) (cache_hours : ℚ) :
    Except String (List (String × DomainEntry)) := do
  if use_cache then
    let _cache_path ← getCachePath mkdirOk cache_dir "domains.json"
    pure (loadCache file now cache_hours)
  else
    pure []

/-- Accumulator of the per-domain loop in check_domains (lines 129-132). -/
structure DomainsState where
  ok_count : Nat := 0
  warnings : List String := []
  errors : List String := []
  new_cache : List (String × DomainEntry) := []
  deriving Repr

/-- Severity bucketing shared by both arms of the loop (lines 149-154 and
177-182): expired, expiring within warn_days, or ok. -/
def domainsBucket (st : DomainsState) (domain : String) (warn_days : ℤ)
    (days_left : ℤ) : DomainsState :=
  if days_left < 0 then
    { st with errors := st.errors ++ [domain ++ ": EXPIRED"] }
  else if days_left ≤ warn_days then
    { st with warnings := st.warnings ++
        [domain ++ ": expires in " ++ toString days_left ++ " days"] }
  else
    { st with ok_count := st.ok_count + 1 }

/-- Fresh-fetch arm of the loop (lines 161-182): consult _get_domain_expiry
(the oracle fetch, returning (success, error_message, expiry)), record a
per-domain error entry on failure, otherwise cache the isoformat expiry
string (the oracle iso) and bucket by days left. days_left is the
timedelta .days field, the floor of the difference in days. -/
def domainsFetchFresh (fetch : String → Bool × String × Option ℚ)
    (iso : ℚ → String) (now : ℚ) (warn_days : ℤ) (st : DomainsState)
    (domain : String) : DomainsState :=
  let r := fetch domain
  if !r.1 then
    { st with errors := st.errors ++ [domain ++ ": " ++ r.2.1],
              new_cache := insertAssoc st.new_cache domain
                [("error", r.2.1)] }
  else
    match r.2.2 with
    | none =>
        { st with
          errors := st.errors ++ [domain ++ ": Could not determine expiry"]
          new_cache := insertAssoc st.new_cache domain
            [("error", "No expiry date")] }
    | some expiry =>
        let days_left : ℤ := ⌊(expiry - now) / 86400⌋
        let st :=
          { st with new_cache :=
              insertAssoc st.new_cache domain [("expiry", iso expiry)] }
        domainsBucket st domain warn_days days_left

/-- One iteration of the per-domain loop of check_domains (lines 134-182).
A cached entry with a truthy error value is reported and kept without any
fetch; a cached parseable expiry is bucketed and kept; anything else falls
through to the fresh fetch. fromiso models datetime.fromisoformat, none
standing for the ValueError the code catches with pass. -/
def domainsStep (fetch : String → Bool × String × Option ℚ)
    (fromiso : String → Option ℚ) (iso : ℚ → String) (now : ℚ)
    (warn_days : ℤ) (cached_data : List (String × DomainEntry))
    (st : DomainsState) (domain : String) : DomainsState :=
  match List.lookup domain cached_data with
  | some cache_entry =>
      if pyTruthyStr (List.lookup "error" cache_entry) then
        { st with
          errors := st.errors ++
            [domain ++ ": " ++ (List.lookup "error" cache_entry).getD ""],
          new_cache := insertAssoc st.new_cache domain cache_entry }
      else
        match List.lookup "expiry" cache_entry with
        | some expiry_str =>
            if expiry_str ≠ "" then
              match fromiso expiry_str with
              | some expiry =>
                  let days_left : ℤ := ⌊(expiry - now) / 86400⌋
                  let st := domainsBucket st domain warn_days days_left
                  { st with new_cache :=
                      insertAssoc st.new_cache domain cache_entry }
              | none => domainsFetchFresh fetch iso now warn_days st domain
            else domainsFetchFresh fetch iso now warn_days st domain
        | none => domainsFetchFresh fetch iso now warn_days st domain
  | none => domainsFetchFresh fetch iso now warn_days st domain

/-- The whole per-domain loop of check_domains. -/
def checkDomainsLoop (fetch : String → Bool × String × Option ℚ)
    (fromiso : String → Option ℚ) (iso : ℚ → String) (now : ℚ)
    (warn_days : ℤ) (cached_data : List (String × DomainEntry))
    (domains : List String) : DomainsState :=
  domains.foldl (domainsStep fetch fromiso iso now warn_days cached_data) {}

/-- JSON primitive stored in the containers cache: Trivy severity counts
(ints) or an error string. -/
inductive JPrim where
  | str (s : String)
  | num (n : ℤ)
  deriving DecidableEq, Repr

/-- Cache entry of checks/containers.py: the dict _scan_image_trivy
returns, either severity counts or a single error key. -/
abbrev ImageCounts := List (String × JPrim)

/-- counts.get(key, 0) followed by integer addition; the module only ever
stores ints under the severity keys. -/
def countGet (counts : ImageCounts) (k : String) : ℤ :=
  match List.lookup k counts with
  | some (.num n) => n
  | _ => 0

/-- Python str() of a cached primitive, for the f-string error line. -/
def fmtPrim : JPrim → String
  | .str s => s
  | .num n => toString n

/-- Accumulator of the per-image loop in check_containers (lines 183-207),
including cached_data, which the loop mutates in place. -/
structure ContainersState where
  cached_data : List (String × ImageCounts)
  total_critical : ℤ := 0
  total_high : ℤ := 0
  total_medium : ℤ := 0
  errors : List String := []
  scanned : Nat := 0
  deriving Repr

/-- Tail of the loop body (lines 200-207): an error key records an error
line, otherwise the image counts as scanned and its severity counts are
accumulated. -/
def containersTally (st : ContainersState) (image : String)
    (counts : ImageCounts) : ContainersState :=
  if (List.lookup "error" counts).isSome then
    { st with errors := st.errors ++
        [image ++ ": " ++ fmtPrim ((List.lookup "error" counts).getD
          (.str ""))] }
  else
    { st with
      scanned := st.scanned + 1
      total_critical := st.total_critical + countGet counts "CRITICAL"
      total_high := st.total_high + countGet counts "HIGH"
      total_medium := st.total_medium + countGet counts "MEDIUM" }

/-- One iteration of the per-image loop of check_containers (lines
189-207): the cached counts are used only when the entry exists and has no
error key; otherwise the image is re-scanned through the Trivy oracle and,
when caching is enabled, cached_data[image] is overwritten with the fresh
result (use_cache and cache_path are set together in the source, modelled
by the single use_cache flag). -/
def containersStep (scan : String → ImageCounts) (use_cache : Bool)
    (st : ContainersState) (image : String) : ContainersState :=
  let cachedOk :=
    match List.lookup image st.cached_data with
    | some entry => if (List.lookup "error" entry).isNone
                    then some entry else none
    | none => none
  match cachedOk with
  | some counts => containersTally st image counts
  | none =>
      let counts := scan image
      let st :=
        if use_cache then
          { st with cached_data := insertAssoc st.cached_data image counts }
        else st
      containersTally st image counts

/-- The whole per-image loop of check_containers. -/
def checkContainersLoop (scan : String → ImageCounts) (use_cache : Bool)
    (cached_data : List (String × ImageCounts)) (images : List String) :
    ContainersState :=
  images.foldl (containersStep scan use_cache) { cached_data := cached_data }

/-- Folding the loop body over a list of completed check names. -/
def foldCompleted (probes : String → ProbeOutcome) (names : List String)
    (st : RunState) : RunState :=
  names.foldl (fun st nm => processFuture st nm (.ok (run_check probes nm))) st

/-- Concrete result list for the C10 witness: one OK and one UNKNOWN. -/
def mixedFlat : List CheckResult :=
  [⟨"a", Status.OK, "m", []⟩, ⟨"b", Status.UNKNOWN, "m", []⟩]

lemma lookup_insertAssoc_self {α : Type} (m : List (String × α)) (k : String)
    (v : α) : List.lookup k (insertAssoc m k v) = some v := by
  induction m with
  | nil => simp [insertAssoc, List.lookup]
  | cons p rest ih =>
      by_cases h : p.1 = k
      · simp [insertAssoc, h, List.lookup]
      · have hb : (k == p.1) = false := by
          simp only [beq_eq_false_iff_ne, ne_eq]
          exact fun hk => h hk.symm
        simp [insertAssoc, if_neg h, List.lookup, hb, ih]

lemma lookup_insertAssoc_ne {α : Type} (m : List (String × α))
    (k k' : String) (v : α) (h : k ≠ k') :
    List.lookup k (insertAssoc m k' v) = List.lookup k m := by
  have hb : (k == k') = false := by
    simp only [beq_eq_false_iff_ne, ne_eq]
    exact h
  induction m with
  | nil => simp [insertAssoc, List.lookup, hb]
  | cons p rest ih =>
      by_cases hp : p.1 = k'
      · simp [insertAssoc, if_pos hp, List.lookup, hp, hb]
      · by_cases hk : k = p.1
        · simp [insertAssoc, if_neg hp, List.lookup, beq_iff_eq, hk]
        · have hbk : (k == p.1) = false := by
            simp only [beq_eq_false_iff_ne, ne_eq]
            exact hk
          simp [insertAssoc, if_neg hp, List.lookup, hbk, ih]

lemma run_check_fst (probes : String → ProbeOutcome) (nm : String) :
    (run_check probes nm).1 = sectionOf nm := by
  unfold run_check
  split
  · cases probes nm <;> rfl
  · rfl

lemma foldCompleted_cons (probes : String → ProbeOutcome) (x : String)
    (rest : List String) (st : RunState) :
    foldCompleted probes (x :: rest) st =
      foldCompleted probes rest
        (processFuture st x (.ok (run_check probes x))) := rfl

lemma collect_map_completed (probes : String → ProbeOutcome)
    (names : List String) (st : RunState) :
    collectResults probes (names.map Event.completed) st =
      .ok (foldCompleted probes names st) := by
  induction names generalizing st with
  | nil => rfl
  | cons nm rest ih => simp [collectResults, foldCompleted, List.foldl, ih]

lemma processFuture_ok_lookup (st : RunState)
    (probes : String → ProbeOutcome) (nm : String) :
    List.lookup (sectionOf nm)
      (processFuture st nm (.ok (run_check probes nm))).all_results =
      some (run_check probes nm).2 := by
  have h := run_check_fst probes nm
  cases hrc : run_check probes nm with
  | mk sec results =>
      simp only [processFuture]
      rw [hrc] at h
      simp at h
      subst h
      exact lookup_insertAssoc_self _ _ _

lemma processFuture_ok_lookup_ne (st : RunState)
    (probes : String → ProbeOutcome) (nm : String) (k : String)
    (h : sectionOf nm ≠ k) :
    List.lookup k
      (processFuture st nm (.ok (run_check probes nm))).all_results =
      List.lookup k st.all_results := by
  have hfst := run_check_fst probes nm
  cases hrc : run_check probes nm with
  | mk sec results =>
      simp only [processFuture]
      rw [hrc] at hfst
      simp at hfst
      subst hfst
      exact lookup_insertAssoc_ne _ _ _ _ (fun hk => h hk.symm)

lemma foldCompleted_lookup_preserved (probes : String → ProbeOutcome)
    (names : List String) (k : String) (st : RunState)
    (h : ∀ nm ∈ names, sectionOf nm ≠ k) :
    List.lookup k (foldCompleted probes names st).all_results =
      List.lookup k st.all_results := by
  induction names generalizing st with
  | nil => rfl
  | cons nm rest ih =>
      rw [foldCompleted_cons,
        ih _ (fun x hx => h x (List.mem_cons_of_mem _ hx))]
      exact processFuture_ok_lookup_ne st probes nm k
        (h nm (List.mem_cons_self _ _))

lemma foldCompleted_lookup (probes : String → ProbeOutcome)
    (names : List String) (nm : String) (st : RunState)
    (hmem : nm ∈ names) (hnd : (names.map sectionOf).Nodup) :
    List.lookup (sectionOf nm) (foldCompleted probes names st).all_results =
      some (run_check probes nm).2 := by
  induction names generalizing st with
  | nil => cases hmem
  | cons x rest ih =>
      simp only [List.map, List.nodup_cons] at hnd
      rcases List.mem_cons.1 hmem with h | h
      · subst h
        have hpres : ∀ y ∈ rest, sectionOf y ≠ sectionOf nm := by
          intro y hy hsec
          exact hnd.1 (hsec ▸ List.mem_map_of_mem sectionOf hy)
        rw [foldCompleted_cons,
          foldCompleted_lookup_preserved probes rest _ _ hpres]
        exact processFuture_ok_lookup _ probes nm
      · rw [foldCompleted_cons]
        exact ih _ h hnd.2

/-- C1. For every Run the orchestrator completes, the process exit code is
2 iff some flattened result has status ERROR; otherwise 1 iff some has
status WARNING; otherwise 0. The flattened list is the fan-in output, so
synthetic failure results are already folded in. -/
theorem exit_code_encodes_severity (probes : String → ProbeOutcome)
    (events : List Event) (st : RunState)
    (_hrun : collectResults probes events initState = .ok st) :
    (overallExitCode st.all_flat_results = 2 ↔
      ∃ r ∈ st.all_flat_results, r.status = Status.ERROR)
    ∧ ((¬ ∃ r ∈ st.all_flat_results, r.status = Status.ERROR) →
        (overallExitCode st.all_flat_results = 1 ↔
          ∃ r ∈ st.all_flat_results, r.status = Status.WARNING))
    ∧ ((¬ ∃ r ∈ st.all_flat_results, r.status = Status.ERROR) →
        (¬ ∃ r ∈ st.all_flat_results, r.status = Status.WARNING) →
        overallExitCode st.all_flat_results = 0) := by
  unfold overallExitCode
  by_cases he : ∃ r ∈ st.all_flat_results, r.status = Status.ERROR
  · rw [if_pos]
    · simp [he]
    · simpa [List.any_eq_true] using he
  · rw [if_neg]
    · by_cases hw : ∃ r ∈ st.all_flat_results, r.status = Status.WARNING
      · rw [if_pos]
        · simp [he, hw]
        · simpa [List.any_eq_true] using hw
      · rw [if_neg]
        · simp [he, hw]
        · simpa [List.any_eq_true] using hw
    · simpa [List.any_eq_true] using he

/-- C10. UNKNOWN results are counted in none of the ok, warning or error
severity counts (their sum covers exactly the non-UNKNOWN results), and a
run whose results all have status OK or UNKNOWN exits with code 0. -/
theorem unknown_results_neutral (flat : List CheckResult) :
    okCount flat + warnCount flat + errorCount flat =
      List.countP (fun r => r.status ≠ Status.UNKNOWN) flat
    ∧ ((∀ r ∈ flat, r.status = Status.OK ∨ r.status = Status.UNKNOWN) →
        overallExitCode flat = 0) := by
  constructor
  · induction flat with
    | nil => simp [okCount, warnCount, errorCount]
    | cons r t ih =>
        cases hr : r.status <;>
          simp [okCount, warnCount, errorCount, List.countP_cons, hr] at * <;>
          omega
  · intro h
    unfold overallExitCode
    rw [if_neg, if_neg]
    · simp only [List.any_eq_true, decide_eq_true_eq, not_exists, not_and]
      intro r hr hw
      rcases h r hr with ho | ho <;> rw [ho] at hw <;> simp at hw
    · simp only [List.any_eq_true, decide_eq_true_eq, not_exists, not_and]
      intro r hr hw
      rcases h r hr with ho | ho <;> rw [ho] at hw <;> simp at hw

/-- Witness for C10 on a concrete result list holding one OK and one
UNKNOWN result. -/
theorem unknown_results_neutral_witness :
    (okCount mixedFlat + warnCount mixedFlat + errorCount mixedFlat =
      List.countP (fun r => r.status ≠ Status.UNKNOWN) mixedFlat)
    ∧ overallExitCode mixedFlat = 0 :=
  ⟨(unknown_results_neutral mixedFlat).1,
   (unknown_results_neutral mixedFlat).2 (by decide)⟩

/-- C3. At the overall as_completed ceiling, unresolved checks do not
become synthetic Timeout-or-error results: the TimeoutError is raised at
the for statement, outside the try/except, so the whole fan-in aborts and
even already-collected results are lost. Evaluated here at a failing
input: one completed check and one check still unresolved at the ceiling. -/
theorem ceiling_aborts_run :
    collectResults (fun _ => ProbeOutcome.ok
        [⟨"kubernetes", Status.OK, "K8s: OK", []⟩])
      [Event.completed "kubernetes", Event.ceiling] initState =
      .error () := rfl

/-- Witness for C1 on a concrete completed run. -/
theorem exit_code_encodes_severity_witness :
    (overallExitCode initState.all_flat_results = 2 ↔
      ∃ r ∈ initState.all_flat_results, r.status = Status.ERROR)
    ∧ ((¬ ∃ r ∈ initState.all_flat_results, r.status = Status.ERROR) →
        (overallExitCode initState.all_flat_results = 1 ↔
          ∃ r ∈ initState.all_flat_results, r.status = Status.WARNING))
    ∧ ((¬ ∃ r ∈ initState.all_flat_results, r.status = Status.ERROR) →
        (¬ ∃ r ∈ initState.all_flat_results, r.status = Status.WARNING) →
        overallExitCode initState.all_flat_results = 0) :=
  exit_code_encodes_severity (fun _ => .ok []) [] initState rfl

/-- C9. For every run whose submitted checks all complete (the completion
events are any permutation of the run-set) and whose sections are
pairwise distinct (true of the static CHECKS table), the result list
stored under a normally-completing probe's section equals exactly the
list that probe returned: no results of other probes are interleaved,
regardless of completion order. -/
theorem section_results_exact (probes : String → ProbeOutcome)
    (names : List String) (nm : String) (res : List CheckResult)
    (hmem : nm ∈ names) (hnd : (names.map sectionOf).Nodup)
    (hreg : (List.lookup nm CHECKS).isSome = true)
    (hok : probes nm = .ok res) :
    ∃ st, collectResults probes (names.map Event.completed) initState =
        .ok st
      ∧ List.lookup (sectionOf nm) st.all_results = some res := by
  refine ⟨foldCompleted probes names initState,
    collect_map_completed probes names initState, ?_⟩
  rw [foldCompleted_lookup probes names nm initState hmem hnd]
  simp [run_check, hreg, hok]

/-- Witness for C9: a two-check run finishing in reverse submission order
still maps the Containers section to exactly what the containers probe
returned. -/
theorem section_results_exact_witness :
    ∃ st, collectResults
        (fun nm => if nm = "containers"
          then ProbeOutcome.ok [⟨"containers", Status.OK, "Containers: ok", []⟩]
          else ProbeOutcome.ok [⟨"kubernetes", Status.OK, "K8s: ok", []⟩])
        (List.map Event.completed ["containers", "kubernetes"]) initState =
        .ok st
      ∧ List.lookup (sectionOf "containers") st.all_results =
          some [⟨"containers", Status.OK, "Containers: ok", []⟩] :=
  section_results_exact _ ["containers", "kubernetes"] "containers" _
    (by decide) (by decide) (by decide) rfl

/-- C2. Failure isolation: when one probe raises an unexpected exception,
the fan-in records exactly one synthetic ERROR result, with message
"<section>: Error - <message truncated to 50 characters>", under that
probe's section; the run still completes, and any other probe that
returned normally keeps exactly its own results. -/
theorem probe_failure_isolated (probes : String → ProbeOutcome)
    (names : List String) (nmA nmB msg : String) (resB : List CheckResult)
    (hA : nmA ∈ names) (hB : nmB ∈ names)
    (hnd : (names.map sectionOf).Nodup)
    (hregA : (List.lookup nmA CHECKS).isSome = true)
    (hregB : (List.lookup nmB CHECKS).isSome = true)
    (hexn : probes nmA = .exn msg) (hok : probes nmB = .ok resB) :
    ∃ st, collectResults probes (names.map Event.completed) initState =
        .ok st
      ∧ List.lookup (sectionOf nmA) st.all_results =
          some [⟨nmA, Status.ERROR,
            sectionOf nmA ++ ": Error - " ++ msg.take 50, []⟩]
      ∧ List.lookup (sectionOf nmB) st.all_results = some resB := by
  refine ⟨foldCompleted probes names initState,
    collect_map_completed probes names initState, ?_, ?_⟩
  · rw [foldCompleted_lookup probes names nmA initState hA hnd]
    simp [run_check, hregA, hexn]
  · rw [foldCompleted_lookup probes names nmB initState hB hnd]
    simp [run_check, hregB, hok]

/-- Witness for C2: check set where the domains probe raises and the
kubernetes probe succeeds; the Domains section carries the single
synthetic ERROR result and the Kubernetes section carries the real one. -/
theorem probe_failure_isolated_witness :
    ∃ st, collectResults
        (fun nm => if nm = "domains"
          then ProbeOutcome.exn "boom"
          else ProbeOutcome.ok [⟨"kubernetes", Status.OK, "K8s: ok", []⟩])
        (List.map Event.completed ["domains", "kubernetes"]) initState =
        .ok st
      ∧ List.lookup (sectionOf "domains") st.all_results =
          some [⟨"domains", Status.ERROR,
            sectionOf "domains" ++ ": Error - " ++ String.take "boom" 50, []⟩]
      ∧ List.lookup (sectionOf "kubernetes") st.all_results =
          some [⟨"kubernetes", Status.OK, "K8s: ok", []⟩] :=
  probe_failure_isolated _ ["domains", "kubernetes"] "domains" "kubernetes"
    "boom" _ (by decide) (by decide) (by decide) (by decide) (by decide)
    rfl rfl

/-- C4. Cache round-trip: after a successful save of mapping m at time
t_save, a load whose age (now - mtime, in hours) is within max_age returns
exactly m, and a load past max_age returns the empty mapping - never
partially-expired data. -/
theorem cache_round_trip {β : Type} (file : CacheBackingFile β)
    (m : List (String × β)) (t_save t_load max_age : ℚ) :
    (¬ ((t_load - t_save) / 3600 > max_age) →
      loadCache (saveCache true file m t_save) t_load max_age = m)
    ∧ (((t_load - t_save) / 3600 > max_age) →
      loadCache (saveCache true file m t_save) t_load max_age = []) := by
  constructor <;> intro h <;> simp [saveCache, loadCache, h]

/-- Witness for C4: a save at time 0 read back one hour later under a
24-hour TTL returns the mapping, and read back 100 hours later returns
the empty mapping. -/
theorem cache_round_trip_witness :
    loadCache (saveCache true CacheBackingFile.absent [("k", "v")] 0)
        3600 24 = [("k", "v")]
    ∧ loadCache (saveCache true CacheBackingFile.absent [("k", "v")] 0)
        360000 24 = [] :=
  ⟨(cache_round_trip CacheBackingFile.absent [("k", "v")] 0 3600 24).1
      (by norm_num),
   (cache_round_trip CacheBackingFile.absent [("k", "v")] 0 360000 24).2
      (by norm_num)⟩

/-- C6 counterexample: path resolution is not soft. With caching enabled,
a mkdir failure inside _get_cache_path raises OSError out of the cache
setup of check_domains, so a cache error does reach the probe, refuting
the claim that no cache exception ever propagates. -/
theorem cache_mkdir_error_reaches_probe :
    checkDomainsCacheSetup false CacheBackingFile.absent 0 true
      "~/.cache/daily-hud" 24 = .error "OSError raised by mkdir" := rfl

/-- C6 as amended. Load and save are soft: _load_cache returns the empty
mapping on an absent, unreadable or malformed file, and a failed
_save_cache leaves the backing file unchanged and raises nothing; but
_get_cache_path propagates a mkdir OSError, and with caching enabled the
cache setup of check_domains therefore propagates it to the probe body
(where the orchestrator's run_check wrapper turns it into a synthetic
ERROR result). -/
theorem cache_errors_soft_except_mkdir :
    (∀ (now max_age : ℚ),
      loadCache (CacheBackingFile.absent : CacheBackingFile DomainEntry)
        now max_age = [])
    ∧ (∀ (now max_age : ℚ),
      loadCache (CacheBackingFile.unreadable : CacheBackingFile DomainEntry)
        now max_age = [])
    ∧ (∀ (mtime now max_age : ℚ),
      loadCache (CacheBackingFile.malformed mtime :
        CacheBackingFile DomainEntry) now max_age = [])
    ∧ (∀ (file : CacheBackingFile DomainEntry)
        (data : List (String × DomainEntry)) (now : ℚ),
      saveCache false file data now = file)
    ∧ (∀ (cache_dir filename : String),
      getCachePath false cache_dir filename =
        .error "OSError raised by mkdir")
    ∧ (∀ (file : CacheBackingFile DomainEntry) (now cache_hours : ℚ)
        (cache_dir : String),
      checkDomainsCacheSetup false file now true cache_dir cache_hours =
        .error "OSError raised by mkdir") := by
  refine ⟨fun _ _ => rfl, fun _ _ => rfl, fun _ _ _ => rfl,
    fun _ _ _ => rfl, fun _ _ => rfl, fun file _ _ _ => ?_⟩
  cases file <;> rfl

/-- C5, domains side. A cached entry whose error value is truthy is
treated as a valid cached value: the step output is identical for any two
WHOIS oracles (the domain is not re-queried), the entry is carried into
the new cache unchanged, the error is reported from the cache, and a load
before TTL expiry returns the entry unchanged. -/
theorem cached_error_entry_stable
    (fetch fetch' : String → Bool × String × Option ℚ)
    (fromiso : String → Option ℚ) (iso : ℚ → String) (now : ℚ)
    (warn_days : ℤ) (cached_data : List (String × DomainEntry))
    (st : DomainsState) (d errval : String) (entry : DomainEntry)
    (hent : List.lookup d cached_data = some entry)
    (herr : List.lookup "error" entry = some errval) (hne : errval ≠ "") :
    domainsStep fetch fromiso iso now warn_days cached_data st d =
      domainsStep fetch' fromiso iso now warn_days cached_data st d
    ∧ (domainsStep fetch fromiso iso now warn_days cached_data st d).new_cache
        = insertAssoc st.new_cache d entry
    ∧ (domainsStep fetch fromiso iso now warn_days cached_data st d).errors
        = st.errors ++ [d ++ ": " ++ errval]
    ∧ (∀ (mtime max_age : ℚ), ¬ ((now - mtime) / 3600 > max_age) →
        List.lookup d
          (loadCache (CacheBackingFile.valid mtime cached_data) now max_age)
          = some entry) := by
  have htr : pyTruthyStr (List.lookup "error" entry) = true := by
    simp [pyTruthyStr, herr, hne]
  have hstep : ∀ (f : String → Bool × String × Option ℚ),
      domainsStep f fromiso iso now warn_days cached_data st d =
        { st with errors := st.errors ++ [d ++ ": " ++ errval],
                  new_cache := insertAssoc st.new_cache d entry } := by
    intro f
    simp only [domainsStep, hent]
    rw [if_pos htr]
    simp [herr]
  refine ⟨?_, ?_, ?_, ?_⟩
  · rw [hstep fetch, hstep fetch']
  · rw [hstep fetch]
  · rw [hstep fetch]
  · intro mtime max_age h
    simp [loadCache, h, hent]

/-- Witness for C5 (domains side): a cached error entry for example.com is
kept, reported, and immune to the WHOIS oracle. -/
theorem cached_error_entry_stable_witness :
    domainsStep (fun _ => (true, "", some 99))
        (fun _ => none) (fun _ => "") 0 30
        [("example.com", [("error", "WHOIS error: boom")])]
        {} "example.com" =
      domainsStep (fun _ => (false, "other", none))
        (fun _ => none) (fun _ => "") 0 30
        [("example.com", [("error", "WHOIS error: boom")])]
        {} "example.com"
    ∧ (domainsStep (fun _ => (true, "", some 99))
        (fun _ => none) (fun _ => "") 0 30
        [("example.com", [("error", "WHOIS error: boom")])]
        {} "example.com").new_cache =
      insertAssoc ({} : DomainsState).new_cache "example.com"
        [("error", "WHOIS error: boom")]
    ∧ (domainsStep (fun _ => (true, "", some 99))
        (fun _ => none) (fun _ => "") 0 30
        [("example.com", [("error", "WHOIS error: boom")])]
        {} "example.com").errors =
      ({} : DomainsState).errors ++ ["example.com: WHOIS error: boom"]
    ∧ (∀ (mtime max_age : ℚ), ¬ ((0 - mtime) / 3600 > max_age) →
        List.lookup "example.com"
          (loadCache (CacheBackingFile.valid mtime
            [("example.com", [("error", "WHOIS error: boom")])]) 0 max_age)
          = some [("error", "WHOIS error: boom")]) :=
  cached_error_entry_stable (fun _ => (true, "", some 99))
    (fun _ => (false, "other", none)) (fun _ => none) (fun _ => "") 0 30
    [("example.com", [("error", "WHOIS error: boom")])] {}
    "example.com" "WHOIS error: boom" [("error", "WHOIS error: boom")]
    (by decide) (by decide) (by decide)

/-- C5 counterexample (containers side): an unexpired cached entry with an
error key is NOT treated as a valid cached value by check_containers; the
image is re-scanned, so the loop outcome depends on the fresh Trivy
result. Two Trivy oracles that differ only in what a fresh scan of the
cached-error image returns produce different loop outcomes, and the fresh
scan is tallied (scanned = 1 under the first oracle). -/
theorem containers_refetch_cached_error :
    (checkContainersLoop
        (fun _ => [("CRITICAL", JPrim.num 0), ("HIGH", JPrim.num 0),
          ("MEDIUM", JPrim.num 0)])
        true [("img", [("error", JPrim.str "x")])] ["img"]).scanned = 1
    ∧ (checkContainersLoop (fun _ => [("error", JPrim.str "y")])
        true [("img", [("error", JPrim.str "x")])] ["img"]).errors =
        ["img: y"]
    ∧ checkContainersLoop
        (fun _ => [("CRITICAL", JPrim.num 0), ("HIGH", JPrim.num 0),
          ("MEDIUM", JPrim.num 0)])
        true [("img", [("error", JPrim.str "x")])] ["img"] ≠
      checkContainersLoop (fun _ => [("error", JPrim.str "y")])
        true [("img", [("error", JPrim.str "x")])] ["img"] := by
  refine ⟨rfl, rfl, ?_⟩
  intro h
  have := congrArg ContainersState.scanned h
  simp [checkContainersLoop, containersStep, containersTally,
    List.lookup, insertAssoc, countGet] at this

/-- C7. Configuration errors are fatal before any dispatch: an explicit
--only list naming an unregistered check makes run-set resolution fail
with exit code 1, and resolution never hands the dispatch phase an empty
run-set (an empty resolved set is also reported with exit code 1 before
any probe is submitted). -/
theorem config_errors_fatal :
    (∀ (s : String) (config : Config) (c : String),
        c ∈ (splitChar ',' s).map pyStrip →
        List.lookup c CHECKS = none → s ≠ "" →
        ∃ msg, mainSelect (some s) config = .error (msg, 1))
    ∧ (∀ (onlyArg : Option String) (config : Config) (l : List String),
        mainSelect onlyArg config = .ok l → l ≠ []) := by
  constructor
  · intro s config c hc hnone hs
    have hmem : c ∈ ((splitChar ',' s).map pyStrip).filter
        (fun c => (List.lookup c CHECKS).isNone) :=
      List.mem_filter.2 ⟨hc, by simp [hnone]⟩
    have hfil : (((splitChar ',' s).map pyStrip).filter
        (fun c => (List.lookup c CHECKS).isNone)).isEmpty = false := by
      cases hfe : (((splitChar ',' s).map pyStrip).filter
          (fun c => (List.lookup c CHECKS).isNone)).isEmpty
      · rfl
      · rw [List.isEmpty_iff] at hfe
        rw [hfe] at hmem
        cases hmem
    refine ⟨"Unknown checks: " ++ String.intercalate ", "
      (((splitChar ',' s).map pyStrip).filter
        (fun c => (List.lookup c CHECKS).isNone)), ?_⟩
    simp [mainSelect, hs, explicitChecks, hfil, Bind.bind, Except.bind]
  · intro onlyArg config l h
    have hcore : ∀ (x : Except (String × Nat) (List String)),
        (x >>= fun checks_to_run =>
          if checks_to_run.isEmpty then
            Except.error ("No checks configured. Edit your config file.", 1)
          else Except.ok checks_to_run) = .ok l → l ≠ [] := by
      intro x hx
      cases x with
      | error e => simp [Bind.bind, Except.bind] at hx
      | ok checks =>
          simp only [Bind.bind, Except.bind] at hx
          by_cases he : checks.isEmpty
          · simp [he] at hx
          · simp [he] at hx
            subst hx
            simpa [List.isEmpty_iff] using he
    cases onlyArg with
    | none => exact hcore _ h
    | some s =>
        by_cases hse : s = "" <;> simp only [mainSelect, hse] at h <;>
          exact hcore _ h

/-- Witness for C7: --only bogus fails with exit code 1, and the default
empty configuration resolves to the non-empty auto run-set. -/
theorem config_errors_fatal_witness :
    (∃ msg, mainSelect (some "bogus") {} = .error (msg, 1))
    ∧ (["kubernetes", "cves", "containers"] ≠ ([] : List String)) :=
  ⟨config_errors_fatal.1 "bogus" {} "bogus" (by decide) (by decide)
      (by decide),
   config_errors_fatal.2 none {} ["kubernetes", "cves", "containers"]
      rfl⟩

/-- C8 counterexample: a configuration whose secrets section carries a
todoist_token reference that fails to resolve (get_secrets stores None for
it, so no todoist secret resolved), yet the todoist check is still
auto-included; inclusion tests the config entry, not the resolved
secret. -/
theorem todoist_included_without_resolved_secret :
    "todoist" ∈ autoChecks { secrets := [("todoist_token", "op-ref")] }
    ∧ List.lookup "todoist_token"
        (get_secrets (fun _ => .error "SecretsError")
          { secrets := [("todoist_token", "op-ref")] }) = some none
    ∧ ¬ specTodoistSecretResolved
        (get_secrets (fun _ => .error "SecretsError")
          { secrets := [("todoist_token", "op-ref")] }) := by
  refine ⟨by decide, by decide, ?_⟩
  intro h
  rcases h with ⟨v, hv⟩
  simp [get_secrets, List.lookup] at hv

/-- C8 as amended. When no explicit list is given: kubernetes and
containers are always included; todoist is included iff the config
secrets section has a truthy todoist_token entry (a configured reference,
regardless of whether its retrieval succeeded); and every other check
follows its own config-presence predicate. -/
theorem auto_selection_predicates (config : Config) :
    "kubernetes" ∈ autoChecks config
    ∧ "containers" ∈ autoChecks config
    ∧ ("todoist" ∈ autoChecks config ↔
        pyTruthyStr (List.lookup "todoist_token" config.secrets) = true)
    ∧ ("github" ∈ autoChecks config ↔
        pyTruthyStr config.github_username = true)
    ∧ ("truenas" ∈ autoChecks config ↔
        pyTruthyStr config.truenas_host = true)
    ∧ ("ssh" ∈ autoChecks config ↔ pyTruthyList config.ssh_hosts = true)
    ∧ ("windows" ∈ autoChecks config ↔
        pyTruthyList config.windows_hosts = true)
    ∧ ("certs" ∈ autoChecks config ↔
        pyTruthyList config.certificates = true)
    ∧ ("domains" ∈ autoChecks config ↔
        pyTruthyList config.domains = true)
    ∧ ("cves" ∈ autoChecks config ↔ config.cves_check_local = true) := by
  refine ⟨?_, ?_, ?_, ?_, ?_, ?_, ?_, ?_, ?_, ?_⟩ <;>
    simp only [autoChecks, List.mem_filter] <;>
    first
      | exact ⟨by decide, rfl⟩
      | (constructor
         · intro h
           exact h.2
         · intro h
           exact ⟨by decide, h⟩)

end DailyHud
